import Mathlib

/-!
Verification of the authentication/session core of the Backend repository:
credential issuance (POST /login), the process-wide active-token registry
(a JS Map with set/get/delete), the JWT verification middleware, and logout.

The JavaScript source is shallowly embedded: JSON claim values, JWT tokens
and HMAC signatures are modelled symbolically (a signature records the
algorithm, key and signed content, which models an unforgeable MAC), the
registry is an association list with JS Map semantics, and each HTTP
handler becomes a pure function from its inputs and the registry to a
response and the new registry.
-/

set_option autoImplicit false

namespace Backend

/-! ## JSON values and JWT payloads -/

/-- A JSON claim value as used in the token payloads of this code base:
the payloads built at login hold numbers and strings only. -/
inductive JsonVal where
  | str (s : String)
  | num (n : Nat)
deriving DecidableEq

/-- A JWT payload: a JS object, modelled as an ordered list of key/value
pairs (object literal order). -/
abbrev Payload := List (String × JsonVal)

/-- JS object property lookup on a payload (first binding wins; payloads
built by the code have distinct keys). -/
def lookupClaim (k : String) : Payload → Option JsonVal
  | [] => none
  | (k', v) :: rest => if k' = k then some v else lookupClaim k rest

/-! ## JWT algorithms, signatures and tokens (jsonwebtoken semantics) -/

/-- Signature algorithms a token header can declare.  HS256 is what
jwt.sign uses by default; RS256 stands for any non-HMAC algorithm and
noneAlg for the unsigned "alg": "none" header. -/
inductive Alg where
  | HS256
  | HS384
  | HS512
  | RS256
  | noneAlg
deriving DecidableEq

/-- The HMAC family: with a string secret and no explicit algorithms
option, jsonwebtoken's verify accepts exactly these. -/
def isHsAlg : Alg → Bool
  | .HS256 => true
  | .HS384 => true
  | .HS512 => true
  | _ => false

/-- Symbolic MAC: a signature value records which algorithm and key
produced it and over which content.  Equality of signatures is then
exactly "recomputing the MAC gives the same value", the standard
symbolic model of an unforgeable MAC. -/
structure JwtSig where
  alg : Alg
  key : String
  content : Payload
deriving DecidableEq

/-- A decoded JWT: the header's algorithm field, the payload, and the
signature part. -/
structure Jwt where
  alg : Alg
  payload : Payload
  sig : JwtSig
deriving DecidableEq

/-- JS falsiness of an optional string (undefined, null and the empty
string are falsy).  Used by requireFields, by the JWT_SECRET startup
check, and by jsonwebtoken's own secret check. -/
def strFalsy : Option String → Bool
  | none => true
  | some s => s == ""

/-- jwt.sign(claims, secret, expiresIn): the library appends the iat
(issued-at) and exp (= iat + ttl seconds, 3600 for "1h") claims to the
payload and signs the whole payload with HS256, its default algorithm. -/
def signJwt (claims : Payload) (secret : String) (now ttl : Nat) : Jwt :=
  let payload := claims ++ [("iat", .num now), ("exp", .num (now + ttl))]
  { alg := .HS256
    payload := payload
    sig := { alg := .HS256, key := secret, content := payload } }

/-- jsonwebtoken's expiry check: with a numeric exp claim the token is
expired as soon as the clock reaches exp; a non-numeric exp is an error;
no exp claim means no expiry check. -/
def checkExp (p : Payload) (now : Nat) : Except String Unit :=
  match lookupClaim "exp" p with
  | none => .ok ()
  | some (.num e) => if e ≤ now then .error "jwt expired" else .ok ()
  | some (.str _) => .error "invalid exp value"

/-- What the middleware extracted from the Authorization header: the
empty string, some other string that is not a well-formed JWT, or (the
canonical encoding of) a JWT. -/
inductive WireTok where
  | emptyStr
  | malformed (s : String)
  | jwt (t : Jwt)
deriving DecidableEq

/-- jwt.verify(token, secret) with no algorithms option, for a string
secret: reject malformed tokens and a falsy secret; accept only the
HMAC-family algorithms (the token's declared algorithm is consulted, but
"none" and non-HMAC algorithms are rejected); check the signature by
recomputation with the server secret; then check expiry. -/
def jwtVerify (w : WireTok) (secret : Option String) (now : Nat) :
    Except String Payload :=
  match w with
  | .emptyStr => .error "jwt must be provided"
  | .malformed _ => .error "jwt malformed"
  | .jwt t =>
    if strFalsy secret then .error "secret or public key must be provided"
    else if isHsAlg t.alg then
      if t.sig = { alg := t.alg, key := secret.getD "", content := t.payload } then
        match checkExp t.payload now with
        | .error e => .error e
        | .ok _ => .ok t.payload
      else .error "invalid signature"
    else .error "invalid algorithm"

/-! ## The verification gate (middleware/auth.js: verifyToken) -/

/-- An HTTP error response with a status code and a body of shape
\x7b error: message \x7d. -/
structure HttpError where
  status : Nat
  error : String
deriving DecidableEq

/-- Outcome of the middleware for one request: denied with an error
response, or granted with the decoded payload stored in req.user. -/
inductive GateResult where
  | denied (e : HttpError)
  | granted (user : Payload)
deriving DecidableEq

/-- const token = authHeader && authHeader.split(" ")[1]: the header is
modelled, already split on spaces, as an optional list of parts; the
extracted value is falsy when the header is absent, has no second part,
or its second part is the empty string. -/
def tokenFromHeader (authHeader : Option (List WireTok)) : Option WireTok :=
  match authHeader.bind (fun parts => parts[1]?) with
  | some WireTok.emptyStr => none
  | t => t

/-- The "Authorization: Bearer token" header, split on spaces. -/
def bearer (w : WireTok) : Option (List WireTok) :=
  some [.malformed "Bearer", w]

/-- The verifyToken middleware: no token extracted means 401
"No token provided, authorization denied"; a token that fails
jwt.verify means 403 "Invalid or expired token"; otherwise the decoded
payload is attached as req.user and the request proceeds.  The active
token registry is never consulted here. -/
def verifyToken (authHeader : Option (List WireTok)) (secret : Option String)
    (now : Nat) : GateResult :=
  match tokenFromHeader authHeader with
  | none => .denied { status := 401, error := "No token provided, authorization denied" }
  | some w =>
    match jwtVerify w secret now with
    | .error _ => .denied { status := 403, error := "Invalid or expired token" }
    | .ok payload => .granted payload

/-! ## The session registry (a JS Map from user id to token) -/

/-- The active-token Map, as its ordered list of entries. -/
abbrev Registry := List (Nat × Jwt)

/-- Map.prototype.set: replace the value of an existing key in place,
otherwise append the new entry. -/
def setActiveToken : Registry → Nat → Jwt → Registry
  | [], u, t => [(u, t)]
  | e :: rest, u, t =>
    if e.1 = u then (u, t) :: rest else e :: setActiveToken rest u t

/-- Map.prototype.get: the value stored under the key, if any. -/
def getActiveToken : Registry → Nat → Option Jwt
  | [], _ => none
  | e :: rest, u => if e.1 = u then some e.2 else getActiveToken rest u

/-- Map.prototype.delete: remove the entry for the key, a no-op when the
key is absent. -/
def clearActiveToken : Registry → Nat → Registry
  | [], _ => []
  | e :: rest, u => if e.1 = u then rest else e :: clearActiveToken rest u

/-- The keys currently present in the registry. -/
def keys (reg : Registry) : List Nat := reg.map (·.1)

/-- Each identity has at most one entry. -/
def KeysUnique (reg : Registry) : Prop := (keys reg).Nodup

/-- One registry operation, as exposed by the module. -/
inductive RegOp where
  | set (u : Nat) (t : Jwt)
  | get (u : Nat)
  | clear (u : Nat)

/-- Effect of one registry operation on the registry state (get reads
only). -/
def applyOp (reg : Registry) : RegOp → Registry
  | .set u t => setActiveToken reg u t
  | .get _ => reg
  | .clear u => clearActiveToken reg u

/-- Effect of a whole sequence of registry operations. -/
def applyOps (reg : Registry) (ops : List RegOp) : Registry :=
  ops.foldl applyOp reg

/-! ## Login and logout routes (index.js) -/

/-- The row the login query selects from tbl_users: SELECT id, fullname,
lastname, password WHERE username = ?. -/
structure UserRow where
  id : Nat
  fullname : String
  lastname : String
  password : String
deriving DecidableEq

/-- Response of POST /login: an error status with body
\x7b error: message \x7d, or 200 with \x7b message, token \x7d. -/
inductive LoginResponse where
  | err (status : Nat) (error : String)
  | ok (message : String) (token : Jwt)
deriving DecidableEq

/-- POST /login.  requireFields rejects a falsy username or password
with 400 naming the field; an unknown username gives 401 "User not
found"; a failed bcrypt.compare gives 401 "Invalid password"; then
jwt.sign with a falsy JWT_SECRET throws, which the catch turns into 500
"Login failed"; otherwise the token over id, fullname and lastname with
a one-hour expiry is minted, stored in the registry under the user's id,
and returned.  The database lookup and bcrypt.compare are the external
collaborators, passed as functions. -/
def login (reg : Registry) (db : String → Option UserRow)
    (cmp : String → String → Bool) (secret : Option String) (now : Nat)
    (username password : Option String) : LoginResponse × Registry :=
  if strFalsy username then (.err 400 "Missing required field: username", reg)
  else if strFalsy password then (.err 400 "Missing required field: password", reg)
  else
    match db (username.getD "") with
    | none => (.err 401 "User not found", reg)
    | some user =>
      if cmp (password.getD "") user.password then
        if strFalsy secret then (.err 500 "Login failed", reg)
        else
          let tok := signJwt
            [("id", .num user.id), ("fullname", .str user.fullname),
              ("lastname", .str user.lastname)]
            (secret.getD "") now 3600
          (.ok "Login successful" tok, setActiveToken reg user.id tok)
      else (.err 401 "Invalid password", reg)

/-- Response of POST /logout: denied by the middleware, or 200 with
\x7b status: "ok", message: "Logged out" \x7d. -/
inductive LogoutResponse where
  | denied (e : HttpError)
  | ok
deriving DecidableEq

/-- POST /logout runs behind verifyToken; on grant it clears the
registry entry for req.user.id and always answers with the success
body.  A missing or non-numeric id claim makes Map.delete a no-op. -/
def logout (reg : Registry) (authHeader : Option (List WireTok))
    (secret : Option String) (now : Nat) : LogoutResponse × Registry :=
  match verifyToken authHeader secret now with
  | .denied e => (.denied e, reg)
  | .granted payload =>
    match lookupClaim "id" payload with
    | some (.num u) => (.ok, clearActiveToken reg u)
    | _ => (.ok, reg)

/-! ## Process startup (index.js top level) -/

/-- The observable startup behaviour: whether the missing-secret error
was logged, and whether app.listen is reached. -/
structure StartupOutcome where
  warnedMissingSecret : Bool
  listens : Bool
deriving DecidableEq

/-- Startup: if (!SECRET_KEY) console.error(...) — a log line only —
and then, unless NODE_ENV === "test", app.listen unconditionally. -/
def startup (jwtSecret : Option String) (nodeEnv : Option String) :
    StartupOutcome :=
  { warnedMissingSecret := strFalsy jwtSecret
    listens := nodeEnv ≠ some "test" }

/-! ## Concrete example data for the executable scenarios -/

/-- A stored user row for alice (the password column holds the bcrypt
hash of "pw" in the symbolic hash model below). -/
def aliceRow : UserRow :=
  { id := 42, fullname := "Alice A", lastname := "A", password := "hash:pw" }

/-- A stored user row for bob. -/
def bobRow : UserRow :=
  { id := 7, fullname := "Bob B", lastname := "B", password := "hash:secret" }

/-- A two-user database for the concrete scenarios. -/
def exampleDb : String → Option UserRow := fun u =>
  if u = "alice" then some aliceRow
  else if u = "bob" then some bobRow
  else none

/-- Symbolic bcrypt.compare: the stored hash matches exactly the hash of
the presented plaintext. -/
def cmpEx : String → String → Bool := fun plain stored =>
  stored == "hash:" ++ plain

/-- The token login mints for alice with secret "s" at time 0. -/
def aliceTok : Jwt :=
  signJwt
    [("id", .num 42), ("fullname", .str "Alice A"), ("lastname", .str "A")]
    "s" 0 3600

/-- The token POST /login mints for a user row: jwt.sign over id, fullname
and lastname with a one-hour expiry. -/
def issuedToken (user : UserRow) (s : String) (now : Nat) : Jwt :=
  signJwt [("id", .num user.id), ("fullname", .str user.fullname),
    ("lastname", .str user.lastname)] s now 3600

/-- A token over the same kind of payload as the issuer's but declared and
signed under HS384 with the same secret "s". -/
def tok384 : Jwt :=
  { alg := .HS384, payload := [("id", .num 42)]
    sig := { alg := .HS384, key := "s", content := [("id", .num 42)] } }

/-- An unsigned token: header algorithm "none" over the same payload. -/
def tokNone : Jwt :=
  { alg := .noneAlg, payload := [("id", JsonVal.num 42)]
    sig := { alg := .noneAlg, key := "", content := [] } }

/-! ## Theorems -/

@[simp] theorem keys_nil : keys [] = [] := rfl

@[simp] theorem keys_cons (e : Nat × Jwt) (r : Registry) :
    keys (e :: r) = e.1 :: keys r := rfl

theorem getActiveToken_setActiveToken_self (r : Registry) (u : Nat) (t : Jwt) :
    getActiveToken (setActiveToken r u t) u = some t := by
  induction r with
  | nil => simp [setActiveToken, getActiveToken]
  | cons e rest ih =>
    by_cases h : e.1 = u
    · simp [setActiveToken, h, getActiveToken]
    · simp [setActiveToken, h, getActiveToken, ih]

theorem getActiveToken_setActiveToken_ne (r : Registry) (u v : Nat) (t : Jwt)
    (h : v ≠ u) : getActiveToken (setActiveToken r u t) v = getActiveToken r v := by
  induction r with
  | nil => simp [setActiveToken, getActiveToken, Ne.symm h]
  | cons e rest ih =>
    by_cases he : e.1 = u
    · subst he
      simp [setActiveToken, getActiveToken, Ne.symm h]
    · simp [setActiveToken, he, getActiveToken, ih]

theorem getActiveToken_clearActiveToken_ne (r : Registry) (u v : Nat)
    (h : v ≠ u) : getActiveToken (clearActiveToken r u) v = getActiveToken r v := by
  induction r with
  | nil => simp [clearActiveToken]
  | cons e rest ih =>
    by_cases he : e.1 = u
    · subst he
      simp [clearActiveToken, getActiveToken, Ne.symm h]
    · simp [clearActiveToken, he, getActiveToken, ih]

theorem mem_keys_setActiveToken {x u : Nat} {t : Jwt} {r : Registry} :
    x ∈ keys (setActiveToken r u t) ↔ x ∈ keys r ∨ x = u := by
  induction r with
  | nil => simp [setActiveToken]
  | cons e rest ih =>
    by_cases he : e.1 = u
    · subst he
      rw [setActiveToken, if_pos rfl, keys_cons, keys_cons]
      simp only [List.mem_cons]
      tauto
    · rw [setActiveToken, if_neg he, keys_cons, keys_cons]
      simp only [List.mem_cons, ih]
      tauto

theorem keysUnique_setActiveToken {r : Registry} (u : Nat) (t : Jwt)
    (h : KeysUnique r) : KeysUnique (setActiveToken r u t) := by
  induction r with
  | nil => simp [KeysUnique, setActiveToken]
  | cons e rest ih =>
    rw [KeysUnique, keys_cons, List.nodup_cons] at h
    by_cases he : e.1 = u
    · subst he
      rw [KeysUnique, setActiveToken, if_pos rfl, keys_cons, List.nodup_cons]
      exact ⟨h.1, h.2⟩
    · rw [KeysUnique, setActiveToken, if_neg he, keys_cons, List.nodup_cons]
      refine ⟨?_, ih h.2⟩
      intro hmem
      rcases mem_keys_setActiveToken.mp hmem with h' | h'
      · exact h.1 h'
      · exact he h'

theorem clearActiveToken_sublist (r : Registry) (u : Nat) :
    List.Sublist (clearActiveToken r u) r := by
  induction r with
  | nil => simp [clearActiveToken]
  | cons e rest ih =>
    by_cases he : e.1 = u
    · rw [clearActiveToken, if_pos he]
      exact List.sublist_cons_self e rest
    · rw [clearActiveToken, if_neg he]
      exact ih.cons₂ e

theorem keysUnique_clearActiveToken {r : Registry} (u : Nat)
    (h : KeysUnique r) : KeysUnique (clearActiveToken r u) := by
  have hs := (clearActiveToken_sublist r u).map (fun e : Nat × Jwt => e.1)
  exact h.sublist hs

theorem not_mem_keys_clearActiveToken {r : Registry} {u : Nat}
    (h : KeysUnique r) : u ∉ keys (clearActiveToken r u) := by
  induction r with
  | nil => simp [clearActiveToken]
  | cons e rest ih =>
    rw [KeysUnique, keys_cons, List.nodup_cons] at h
    by_cases he : e.1 = u
    · subst he
      rw [clearActiveToken, if_pos rfl]
      exact h.1
    · rw [clearActiveToken, if_neg he, keys_cons]
      intro hmem
      rcases List.mem_cons.mp hmem with h' | h'
      · exact he h'.symm
      · exact ih h.2 h'

theorem clearActiveToken_of_not_mem {r : Registry} {u : Nat}
    (h : u ∉ keys r) : clearActiveToken r u = r := by
  induction r with
  | nil => rfl
  | cons e rest ih =>
    rw [keys_cons, List.mem_cons] at h
    push_neg at h
    rw [clearActiveToken, if_neg (fun hh => h.1 hh.symm), ih h.2]

theorem keysUnique_applyOps {r : Registry} (ops : List RegOp)
    (h : KeysUnique r) : KeysUnique (applyOps r ops) := by
  induction ops generalizing r with
  | nil => simpa [applyOps]
  | cons op rest ih =>
    have hop : KeysUnique (applyOp r op) := by
      cases op with
      | set u t => exact keysUnique_setActiveToken u t h
      | get u => exact h
      | clear u => exact keysUnique_clearActiveToken u h
    simpa [applyOps, List.foldl_cons] using ih hop

theorem strFalsy_some_false {s : String} (h : s ≠ "") : strFalsy (some s) = false := by
  simp [strFalsy, h]

theorem lookupClaim_append_of_none {k : String} {xs ys : Payload}
    (h : lookupClaim k xs = none) : lookupClaim k (xs ++ ys) = lookupClaim k ys := by
  induction xs with
  | nil => simp
  | cons e rest ih =>
    rw [lookupClaim] at h
    by_cases hk : e.1 = k
    · rw [if_pos hk] at h
      cases h
    · rw [if_neg hk] at h
      cases e
      rw [List.cons_append, lookupClaim, if_neg hk]
      exact ih h

theorem login_success (reg : Registry) (db : String → Option UserRow)
    (cmp : String → String → Bool) (s : String) (now : Nat)
    (uname pw : String) (user : UserRow)
    (hu : uname ≠ "") (hp : pw ≠ "") (hs : s ≠ "")
    (hdb : db uname = some user) (hcmp : cmp pw user.password = true) :
    login reg db cmp (some s) now (some uname) (some pw) =
      (.ok "Login successful" (issuedToken user s now),
       setActiveToken reg user.id (issuedToken user s now)) := by
  simp [login, issuedToken, strFalsy_some_false hu, strFalsy_some_false hp,
    strFalsy_some_false hs, hdb, hcmp]

theorem jwtVerify_signJwt (claims : Payload) (s : String) (now ttl later : Nat)
    (hs : s ≠ "") (hnoexp : lookupClaim "exp" claims = none) (hlt : later < now + ttl) :
    jwtVerify (.jwt (signJwt claims s now ttl)) (some s) later
      = .ok (signJwt claims s now ttl).payload := by
  have hnle : ¬ (now + ttl ≤ later) := by omega
  simp [jwtVerify, signJwt, strFalsy_some_false hs, isHsAlg, checkExp,
    lookupClaim_append_of_none hnoexp, lookupClaim, hnle]

theorem verifyToken_bearer_signJwt (claims : Payload) (s : String)
    (now ttl later : Nat) (hs : s ≠ "")
    (hnoexp : lookupClaim "exp" claims = none) (hlt : later < now + ttl) :
    verifyToken (bearer (.jwt (signJwt claims s now ttl))) (some s) later
      = .granted (signJwt claims s now ttl).payload := by
  have h1 : tokenFromHeader (bearer (.jwt (signJwt claims s now ttl)))
      = some (.jwt (signJwt claims s now ttl)) := rfl
  simp [verifyToken, h1, jwtVerify_signJwt claims s now ttl later hs hnoexp hlt]

/-- Claim C5: for every identity, a successful login immediately followed by
authenticate with the returned token is granted before the hour is up, and
the verified identity and claims (id, fullname, lastname) are attached to
the request context. -/
theorem c5_issue_then_authenticate_granted :
    ∀ (reg : Registry) (db : String → Option UserRow) (cmp : String → String → Bool)
      (s : String) (now later : Nat) (uname pw : String) (user : UserRow),
      uname ≠ "" → pw ≠ "" → s ≠ "" →
      db uname = some user → cmp pw user.password = true →
      later < now + 3600 →
      (login reg db cmp (some s) now (some uname) (some pw)).1
        = .ok "Login successful" (issuedToken user s now) ∧
      verifyToken (bearer (.jwt (issuedToken user s now))) (some s) later
        = .granted (issuedToken user s now).payload ∧
      lookupClaim "id" (issuedToken user s now).payload = some (.num user.id) ∧
      lookupClaim "fullname" (issuedToken user s now).payload = some (.str user.fullname) ∧
      lookupClaim "lastname" (issuedToken user s now).payload = some (.str user.lastname) := by
  intro reg db cmp s now later uname pw user hu hp hs hdb hcmp hlt
  refine ⟨?_, ?_, ?_, ?_, ?_⟩
  · rw [login_success reg db cmp s now uname pw user hu hp hs hdb hcmp]
  · exact verifyToken_bearer_signJwt _ s now 3600 later hs (by simp [lookupClaim]) hlt
  · simp [issuedToken, signJwt, lookupClaim]
  · simp [issuedToken, signJwt, lookupClaim]
  · simp [issuedToken, signJwt, lookupClaim]

/-- Claim C5 witness: the concrete alice scenario, issued at time 0 and
authenticated at time 10. -/
theorem c5_witness :
    (login [] exampleDb cmpEx (some "s") 0 (some "alice") (some "pw")).1
      = .ok "Login successful" (issuedToken aliceRow "s" 0) ∧
    verifyToken (bearer (.jwt (issuedToken aliceRow "s" 0))) (some "s") 10
      = .granted (issuedToken aliceRow "s" 0).payload ∧
    lookupClaim "id" (issuedToken aliceRow "s" 0).payload = some (.num aliceRow.id) ∧
    lookupClaim "fullname" (issuedToken aliceRow "s" 0).payload
      = some (.str aliceRow.fullname) ∧
    lookupClaim "lastname" (issuedToken aliceRow "s" 0).payload
      = some (.str aliceRow.lastname) :=
  c5_issue_then_authenticate_granted [] exampleDb cmpEx "s" 0 10 "alice" "pw"
    aliceRow (by decide) (by decide) (by decide) (by decide) (by decide) (by decide)

/-- Claim C9: every token produced by a successful login is signed with the
configured secret under HS256, embeds exactly the identity and the two
display claims plus iat and exp, carries a one-hour time-to-live, and has
no password claim. -/
theorem c9_issued_token_shape :
    ∀ (reg : Registry) (db : String → Option UserRow) (cmp : String → String → Bool)
      (s : String) (now : Nat) (uname pw : String) (user : UserRow),
      uname ≠ "" → pw ≠ "" → s ≠ "" →
      db uname = some user → cmp pw user.password = true →
      login reg db cmp (some s) now (some uname) (some pw)
        = (.ok "Login successful" (issuedToken user s now),
           setActiveToken reg user.id (issuedToken user s now)) ∧
      (issuedToken user s now).alg = .HS256 ∧
      (issuedToken user s now).sig
        = { alg := .HS256, key := s, content := (issuedToken user s now).payload } ∧
      (issuedToken user s now).payload
        = [("id", .num user.id), ("fullname", .str user.fullname),
          ("lastname", .str user.lastname), ("iat", .num now),
          ("exp", .num (now + 3600))] ∧
      lookupClaim "iat" (issuedToken user s now).payload = some (.num now) ∧
      lookupClaim "exp" (issuedToken user s now).payload = some (.num (now + 3600)) ∧
      lookupClaim "password" (issuedToken user s now).payload = none := by
  intro reg db cmp s now uname pw user hu hp hs hdb hcmp
  refine ⟨login_success reg db cmp s now uname pw user hu hp hs hdb hcmp,
    rfl, rfl, by simp [issuedToken, signJwt], ?_, ?_, ?_⟩
  · simp [issuedToken, signJwt, lookupClaim]
  · simp [issuedToken, signJwt, lookupClaim]
  · simp [issuedToken, signJwt, lookupClaim]

/-- Claim C9 witness: the concrete alice login at time 0. -/
theorem c9_witness :
    login [] exampleDb cmpEx (some "s") 0 (some "alice") (some "pw")
      = (.ok "Login successful" (issuedToken aliceRow "s" 0),
         setActiveToken [] aliceRow.id (issuedToken aliceRow "s" 0)) ∧
    (issuedToken aliceRow "s" 0).alg = .HS256 ∧
    (issuedToken aliceRow "s" 0).sig
      = { alg := .HS256, key := "s", content := (issuedToken aliceRow "s" 0).payload } ∧
    (issuedToken aliceRow "s" 0).payload
      = [("id", .num aliceRow.id), ("fullname", .str aliceRow.fullname),
        ("lastname", .str aliceRow.lastname), ("iat", .num 0),
        ("exp", .num (0 + 3600))] ∧
    lookupClaim "iat" (issuedToken aliceRow "s" 0).payload = some (.num 0) ∧
    lookupClaim "exp" (issuedToken aliceRow "s" 0).payload = some (.num (0 + 3600)) ∧
    lookupClaim "password" (issuedToken aliceRow "s" 0).payload = none :=
  c9_issued_token_shape [] exampleDb cmpEx "s" 0 "alice" "pw" aliceRow
    (by decide) (by decide) (by decide) (by decide) (by decide)

/-- Claim C2 counterexample: with JWT_SECRET missing the process still
reaches app.listen and serves, and a login with valid credentials fails
per-request with 500 "Login failed" — there is no fail-fast startup
configuration error. -/
theorem c2_counterexample :
    (startup none none).warnedMissingSecret = true ∧
    (startup none none).listens = true ∧
    login [] exampleDb cmpEx none 0 (some "bob") (some "secret")
      = (.err 500 "Login failed", []) := by
  refine ⟨rfl, by decide, by decide⟩

/-- Claim C2 as amended: when the signing secret is absent or empty the
startup code only logs a configuration error and still serves (app.listen
runs whenever NODE_ENV is not "test"); token issuance then fails
per-request, a valid-credential login answering 500 "Login failed". -/
theorem c2_startup_warns_but_serves :
    ∀ (secretEnv nodeEnv : Option String), strFalsy secretEnv = true →
      (startup secretEnv nodeEnv).warnedMissingSecret = true ∧
      (nodeEnv ≠ some "test" → (startup secretEnv nodeEnv).listens = true) ∧
      (∀ (reg : Registry) (db : String → Option UserRow)
        (cmp : String → String → Bool) (now : Nat) (uname pw : String)
        (user : UserRow),
        uname ≠ "" → pw ≠ "" → db uname = some user →
        cmp pw user.password = true →
        login reg db cmp secretEnv now (some uname) (some pw)
          = (.err 500 "Login failed", reg)) := by
  intro secretEnv nodeEnv hsecret
  refine ⟨by simp [startup, hsecret], ?_, ?_⟩
  · intro h
    simp [startup, h]
  · intro reg db cmp now uname pw user hu hp hdb hcmp
    simp [login, strFalsy_some_false hu, strFalsy_some_false hp, hdb, hcmp, hsecret]

/-- Claim C2 witness: the amended claim at the concrete inputs of the
counterexample: secret absent, bob logging in with his real password. -/
theorem c2_witness :
    (startup none none).warnedMissingSecret = true ∧
    (startup none none).listens = true ∧
    login [] exampleDb cmpEx none 0 (some "bob") (some "secret")
      = (.err 500 "Login failed", []) :=
  ⟨(c2_startup_warns_but_serves none none (by decide)).1,
   (c2_startup_warns_but_serves none none (by decide)).2.1 (by decide),
   (c2_startup_warns_but_serves none none (by decide)).2.2 [] exampleDb cmpEx 0
     "bob" "secret" bobRow (by decide) (by decide) (by decide) (by decide)⟩

/-- Claim C3 counterexample: the two concrete failed logins of the spec's
scenario are both 401 but carry different error bodies, so the claim that
they have the same externally observable error shape is false. -/
theorem c3_counterexample :
    (login [] exampleDb cmpEx (some "s") 0 (some "unknown_user") (some "x")).1
      = .err 401 "User not found" ∧
    (login [] exampleDb cmpEx (some "s") 0 (some "bob") (some "wrongpass")).1
      = .err 401 "Invalid password" ∧
    LoginResponse.err 401 "User not found" ≠ LoginResponse.err 401 "Invalid password" := by
  refine ⟨by decide, by decide, by decide⟩

/-- Claim C3 as amended: an unknown username and a wrong password both
produce an HTTP 401 response whose body has the same shape (a single
error string), but the bodies differ — "User not found" versus
"Invalid password" — so a caller can distinguish which half of the
credential check failed. -/
theorem c3_login_failures_distinguishable :
    ∀ (reg : Registry) (db : String → Option UserRow) (cmp : String → String → Bool)
      (secret : Option String) (now : Nat) (uname pw : String),
      uname ≠ "" → pw ≠ "" →
      (db uname = none →
        login reg db cmp secret now (some uname) (some pw)
          = (.err 401 "User not found", reg)) ∧
      (∀ user : UserRow, db uname = some user → cmp pw user.password = false →
        login reg db cmp secret now (some uname) (some pw)
          = (.err 401 "Invalid password", reg)) ∧
      ("User not found" : String) ≠ "Invalid password" := by
  intro reg db cmp secret now uname pw hu hp
  refine ⟨?_, ?_, by decide⟩
  · intro hdb
    simp [login, strFalsy_some_false hu, strFalsy_some_false hp, hdb]
  · intro user hdb hcmp
    simp [login, strFalsy_some_false hu, strFalsy_some_false hp, hdb, hcmp]

/-- Claim C3 witness: the amended claim at the spec's concrete scenario. -/
theorem c3_witness :
    login [] exampleDb cmpEx (some "s") 0 (some "unknown_user") (some "x")
      = (.err 401 "User not found", []) ∧
    login [] exampleDb cmpEx (some "s") 0 (some "bob") (some "wrongpass")
      = (.err 401 "Invalid password", []) ∧
    ("User not found" : String) ≠ "Invalid password" :=
  ⟨(c3_login_failures_distinguishable [] exampleDb cmpEx (some "s") 0
      "unknown_user" "x" (by decide) (by decide)).1 (by decide),
   (c3_login_failures_distinguishable [] exampleDb cmpEx (some "s") 0
      "bob" "wrongpass" (by decide) (by decide)).2.1 bobRow (by decide) (by decide),
   (c3_login_failures_distinguishable [] exampleDb cmpEx (some "s") 0
      "unknown_user" "x" (by decide) (by decide)).2.2⟩

/-- Claim C4 counterexample: issuance pins HS256, yet a token whose header
declares HS384 — an algorithm other than the pinned one — still verifies
when signed under the secret, so verification does not fail for every
token declaring another algorithm. -/
theorem c4_counterexample :
    (signJwt [("id", .num 42)] "s" 0 3600).alg = Alg.HS256 ∧
    tok384.alg ≠ Alg.HS256 ∧
    jwtVerify (.jwt tok384) (some "s") 0 = .ok tok384.payload := by
  refine ⟨rfl, by decide, rfl⟩

/-- Claim C4 as amended: the verifier does not trust arbitrary algorithm
fields — tokens declaring "none" or any non-HMAC algorithm are rejected
with "invalid algorithm", and a verified token's signature is always the
HMAC of its payload under the server secret — but the accepted set is the
whole HMAC family HS256/HS384/HS512 rather than the single issuing
algorithm HS256. -/
theorem c4_hmac_family_not_single_alg :
    ∀ (t : Jwt) (s : String) (now : Nat), s ≠ "" →
      (isHsAlg t.alg = false →
        jwtVerify (.jwt t) (some s) now = .error "invalid algorithm") ∧
      (∀ p : Payload, jwtVerify (.jwt t) (some s) now = .ok p →
        isHsAlg t.alg = true ∧
        t.sig = { alg := t.alg, key := s, content := t.payload } ∧
        p = t.payload) := by
  intro t s now hs
  constructor
  · intro hAlg
    simp [jwtVerify, strFalsy_some_false hs, hAlg]
  · intro p hp
    rw [jwtVerify] at hp
    simp only [strFalsy_some_false hs, Bool.false_eq_true, if_false, Option.getD_some] at hp
    by_cases hAlg : isHsAlg t.alg
    · rw [if_pos hAlg] at hp
      by_cases hsig : t.sig = { alg := t.alg, key := s, content := t.payload }
      · rw [if_pos hsig] at hp
        refine ⟨hAlg, hsig, ?_⟩
        cases hexp : checkExp t.payload now with
        | error e => rw [hexp] at hp; cases hp
        | ok u => rw [hexp] at hp; cases hp; rfl
      · rw [if_neg hsig] at hp
        cases hp
    · rw [if_neg hAlg] at hp
      cases hp

/-- Claim C4 witness: the amended claim applied to the "alg": "none"
token tokNone, which the verifier rejects. -/
theorem c4_witness :
    jwtVerify (.jwt tokNone) (some "s") 0 = .error "invalid algorithm" :=
  (c4_hmac_family_not_single_alg tokNone "s" 0 (by decide)).1 (by decide)

/-- Claim C7: the gate's denial outcomes are distinguishable by cause — no
extracted bearer token is denied 401 "No token provided, authorization
denied", while a present token failing signature, format or expiry checks
is denied 403 "Invalid or expired token", and the two outcomes differ. -/
theorem c7_denial_reasons_distinct :
    ∀ (hdr : Option (List WireTok)) (secret : Option String) (now : Nat),
      (tokenFromHeader hdr = none →
        verifyToken hdr secret now
          = .denied { status := 401, error := "No token provided, authorization denied" }) ∧
      (∀ (w : WireTok) (e : String), tokenFromHeader hdr = some w →
        jwtVerify w secret now = .error e →
        verifyToken hdr secret now
          = .denied { status := 403, error := "Invalid or expired token" }) ∧
      ({ status := 401, error := "No token provided, authorization denied" } : HttpError)
        ≠ { status := 403, error := "Invalid or expired token" } := by
  intro hdr secret now
  refine ⟨?_, ?_, by decide⟩
  · intro h
    simp [verifyToken, h]
  · intro w e h1 h2
    simp [verifyToken, h1, h2]

/-- Claim C7 witness: an absent header is denied 401 and a malformed
bearer token is denied 403, two different outcomes. -/
theorem c7_witness :
    verifyToken none (some "s") 0
      = .denied { status := 401, error := "No token provided, authorization denied" } ∧
    verifyToken (bearer (.malformed "x")) (some "s") 0
      = .denied { status := 403, error := "Invalid or expired token" } ∧
    ({ status := 401, error := "No token provided, authorization denied" } : HttpError)
      ≠ { status := 403, error := "Invalid or expired token" } :=
  ⟨(c7_denial_reasons_distinct none (some "s") 0).1 rfl,
   (c7_denial_reasons_distinct (bearer (.malformed "x")) (some "s") 0).2.1
     (.malformed "x") "jwt malformed" rfl rfl,
   (c7_denial_reasons_distinct none (some "s") 0).2.2⟩

/-- Claim C1 (a code bug relative to the spec): the spec requires
authenticate to cross-check the Session Registry so that logout (or a
superseding login) revokes an unexpired token, but the verifyToken
middleware never reads the registry.  Concretely: login stores alice's
token under id 42, logout removes the entry, the registry lookup for 42 is
then empty — and yet the gate still grants the very same unexpired token. -/
theorem c1_revocation_not_enforced :
    login [] exampleDb cmpEx (some "s") 0 (some "alice") (some "pw")
      = (.ok "Login successful" aliceTok, [(42, aliceTok)]) ∧
    logout [(42, aliceTok)] (bearer (.jwt aliceTok)) (some "s") 5 = (.ok, []) ∧
    getActiveToken [] 42 = none ∧
    verifyToken (bearer (.jwt aliceTok)) (some "s") 10
      = .granted aliceTok.payload :=
  ⟨by decide, by decide, rfl, by decide⟩

/-- Claim C6: after any sequence of registry operations starting from the
empty registry each identity has at most one entry, and set
unconditionally overwrites: reading an identity right after setting it
returns exactly the token just stored. -/
theorem c6_at_most_one_token_per_identity :
    (∀ ops : List RegOp, KeysUnique (applyOps [] ops)) ∧
    (∀ (reg : Registry) (u : Nat) (t : Jwt),
      getActiveToken (setActiveToken reg u t) u = some t) :=
  ⟨fun ops => keysUnique_applyOps ops (by simp [KeysUnique]),
   getActiveToken_setActiveToken_self⟩

/-- Claim C8: logout is idempotent and always succeeds — clearing an
absent identity is a no-op, a granted logout returns success whatever the
registry holds, and a second logout with the same credential returns
success again and leaves the registry exactly as after the first. -/
theorem c8_logout_idempotent :
    ∀ (reg : Registry) (hdr : Option (List WireTok)) (secret : Option String)
      (now : Nat) (p : Payload) (u : Nat),
      verifyToken hdr secret now = .granted p →
      lookupClaim "id" p = some (.num u) →
      KeysUnique reg →
      (u ∉ keys reg → clearActiveToken reg u = reg) ∧
      logout reg hdr secret now = (.ok, clearActiveToken reg u) ∧
      logout (logout reg hdr secret now).2 hdr secret now
        = (.ok, clearActiveToken reg u) := by
  intro reg hdr secret now p u hgrant hid hku
  have hlog : logout reg hdr secret now = (.ok, clearActiveToken reg u) := by
    simp only [logout, hgrant, hid]
  refine ⟨fun hn => clearActiveToken_of_not_mem hn, hlog, ?_⟩
  rw [hlog]
  simp only [logout, hgrant, hid]
  rw [clearActiveToken_of_not_mem (not_mem_keys_clearActiveToken hku)]

/-- Claim C8 witness: alice's granted logout succeeds on an empty registry
(no session present), clearing an absent identity is a no-op, and the
double logout on the one-entry registry succeeds twice, the second call
being a no-op. -/
theorem c8_witness :
    clearActiveToken [] 42 = [] ∧
    logout [] (bearer (.jwt aliceTok)) (some "s") 10
      = (.ok, clearActiveToken [] 42) ∧
    logout [(42, aliceTok)] (bearer (.jwt aliceTok)) (some "s") 10
      = (.ok, clearActiveToken [(42, aliceTok)] 42) ∧
    logout (logout [(42, aliceTok)] (bearer (.jwt aliceTok)) (some "s") 10).2
        (bearer (.jwt aliceTok)) (some "s") 10
      = (.ok, clearActiveToken [(42, aliceTok)] 42) :=
  ⟨(c8_logout_idempotent [] (bearer (.jwt aliceTok)) (some "s") 10
      aliceTok.payload 42 (by decide) (by decide) (by simp [KeysUnique])).1 (by decide),
   (c8_logout_idempotent [] (bearer (.jwt aliceTok)) (some "s") 10
      aliceTok.payload 42 (by decide) (by decide) (by simp [KeysUnique])).2.1,
   (c8_logout_idempotent [(42, aliceTok)] (bearer (.jwt aliceTok)) (some "s") 10
      aliceTok.payload 42 (by decide) (by decide) (by simp [KeysUnique])).2.1,
   (c8_logout_idempotent [(42, aliceTok)] (bearer (.jwt aliceTok)) (some "s") 10
      aliceTok.payload 42 (by decide) (by decide) (by simp [KeysUnique])).2.2⟩

/-- Claim C10: registry operations on one identity leave every other
identity's entry unchanged, whether present or absent. -/
theorem c10_registry_frame :
    ∀ (reg : Registry) (u v : Nat) (t : Jwt), v ≠ u →
      getActiveToken (setActiveToken reg u t) v = getActiveToken reg v ∧
      getActiveToken (clearActiveToken reg u) v = getActiveToken reg v :=
  fun reg u v t h =>
    ⟨getActiveToken_setActiveToken_ne reg u v t h,
     getActiveToken_clearActiveToken_ne reg u v h⟩

/-- Claim C10 witness: setting and clearing identity 7 leaves identity
42's entry untouched. -/
theorem c10_witness :
    getActiveToken (setActiveToken [(42, aliceTok)] 7 aliceTok) 42
      = getActiveToken [(42, aliceTok)] 42 ∧
    getActiveToken (clearActiveToken [(42, aliceTok)] 7) 42
      = getActiveToken [(42, aliceTok)] 42 :=
  c10_registry_frame [(42, aliceTok)] 7 42 aliceTok (by decide)

end Backend
